import Mathlib

/-!
Shallow embedding of the result-rendering core of the vscode-sql-explorer
repository: the virtual-scrolling results grid (webview component
`ResultsGrid`), the bottom-panel results script (`media/results-panel.js`),
and the row-capping post-processing of `DuckDBManager.executeQuery`.

JavaScript numbers are modelled as `ℚ` (the claims touch only exact
decimal values and comparisons, where double rounding plays no role);
pixel offsets delivered by the DOM (`scrollTop`, `clientHeight`) are
modelled as `ℕ` where the code only ever sees non-negative values, and as
`ℤ` with explicit floor division where the code can see negative
intermediate values. Ambient browser facilities (locale date/number
formatting, canvas text measurement) are parameters of the embedding,
since the code treats them as opaque string producers.
-/

namespace SqlExplorer

/-- Column metadata, from `duckdb-manager.ts`: `interface Column with fields
name: string and type: string`. -/
structure Column where
  name : String
  type : String
deriving DecidableEq

/-- A cell value as the renderer receives it. Mirrors the JavaScript value
shapes `formatValue` dispatches on: `null`, `undefined`, `number`,
`string`, `Date` (carried as its epoch-milliseconds), a plain object, and
`boolean`. An object carries what the ambient `JSON.stringify` would do to
it (`some s` = returns `s`, `none` = throws), whether it has a `toJSON`
method, and its generic `String(value)` conversion. -/
inductive Value where
  | vnull
  | vundefined
  | num (q : ℚ)
  | str (s : String)
  | date (epochMillis : ℚ)
  | obj (hasToJSON : Bool) (jsonResult : Option String) (strConv : String)
  | bool (b : Bool)
deriving DecidableEq

/-- Ambient locale formatting used by `formatValue`: `Date(ms).toLocaleString`
for a date built from epoch-milliseconds `ms`, `Number.toLocaleString` for
integers, and `Number.toLocaleString` with the 2..4 fraction-digit options
for non-integers. -/
structure Env where
  dateToLocaleString : ℚ → String
  intToLocaleString : ℚ → String
  fracToLocaleString : ℚ → String

/-- JavaScript `s.includes(sub)`: substring containment. -/
def jsIncludes (s sub : String) : Bool := decide (sub.data <:+: s.data)

/-- JavaScript `s.toUpperCase()`, character by character. The type labels
this is applied to are ASCII, where per-character upcasing agrees with the
JavaScript semantics. -/
def jsToUpperCase (s : String) : String := String.mk (s.data.map Char.toUpper)

/-- How the browser serializes one character of a text node back to HTML:
this is the effect of `escapeHtml` in `results-panel.js` (set
`div.textContent`, read `div.innerHTML`), which escapes the markup-active
characters and leaves the rest alone. -/
def escapeChar (c : Char) : List Char :=
  if c = '&' then ['&', 'a', 'm', 'p', ';']
  else if c = '<' then ['&', 'l', 't', ';']
  else if c = '>' then ['&', 'g', 't', ';']
  else [c]

/-- `escapeChar` mapped over a whole character list. -/
def escapeChars : List Char → List Char
  | [] => []
  | c :: rest => escapeChar c ++ escapeChars rest

/-- `escapeHtml(text)` of `results-panel.js` lines 267-272 (the webview
component's private `escapeHtml` is identical): serialize the string as
HTML text. -/
def escapeHtml (s : String) : String := String.mk (escapeChars s.data)

/-- How an HTML parser turns markup back into visible text: decode the
three entities `escapeChar` produces, pass everything else through. Used
to state that escaped cell content renders as the original literal text. -/
def unescapeChars : List Char → List Char
  | [] => []
  | '&' :: 'a' :: 'm' :: 'p' :: ';' :: r => '&' :: unescapeChars r
  | '&' :: 'l' :: 't' :: ';' :: r => '<' :: unescapeChars r
  | '&' :: 'g' :: 't' :: ';' :: r => '>' :: unescapeChars r
  | c :: rest => c :: unescapeChars rest

/-- String version of `unescapeChars`. -/
def unescapeHtml (s : String) : String := String.mk (unescapeChars s.data)

namespace ResultsGrid

/-- `ResultsGrid.formatValue(value, type)` from the webview grid component:
null and undefined print as NULL; on a type whose upper-cased label
contains DATE or TIMESTAMP a numeric value is taken as an epoch stamp
(divided by 1000 first when above 1e12, i.e. treated as microseconds) and
a Date is printed directly; a non-date object prints via `toJSON`-aware
`String(value)` or `JSON.stringify` with a catch falling back to
`String(value)`; a non-temporal number prints with locale grouping
(integers) or 2..4 fraction digits; everything else via `String(value)`.
A Date value reaches `toLocaleString` both through the temporal branch and
through the object branch of the source, with the same result, so the two
are collapsed into the single `date` case here. -/
def formatValue (env : Env) (v : Value) (type? : Option String) : String :=
  let typeUpper := (type?.map jsToUpperCase).getD ""
  let isTemporal := jsIncludes typeUpper "DATE" || jsIncludes typeUpper "TIMESTAMP"
  match v with
  | .vnull => "NULL"
  | .vundefined => "NULL"
  | .num q =>
    if isTemporal then
      env.dateToLocaleString (if (1000000000000 : ℚ) < q then q / 1000 else q)
    else if q.den = 1 then env.intToLocaleString q
    else env.fracToLocaleString q
  | .date e => env.dateToLocaleString e
  | .obj hasToJSON jsonResult strConv =>
    if hasToJSON then strConv
    else
      match jsonResult with
      | some j => j
      | none => strConv
  | .str s => s
  | .bool b => cond b "true" "false"

/-- `JSON.stringify(value)` on an object value: returns the recorded
serialization or throws (modelled in `Except`). -/
def jsStringify (jsonResult : Option String) : Except Unit String :=
  match jsonResult with
  | some j => Except.ok j
  | none => Except.error ()

/-- `formatValue` with JavaScript exception semantics made explicit: the
one operation in its body that can throw is `JSON.stringify`, and the
source wraps it in try/catch (modelled by the match on `jsStringify`).
Every branch therefore produces `Except.ok`. -/
def formatValueE (env : Env) (v : Value) (type? : Option String) : Except Unit String :=
  let typeUpper := (type?.map jsToUpperCase).getD ""
  let isTemporal := jsIncludes typeUpper "DATE" || jsIncludes typeUpper "TIMESTAMP"
  match v with
  | .vnull => Except.ok "NULL"
  | .vundefined => Except.ok "NULL"
  | .num q =>
    if isTemporal then
      Except.ok (env.dateToLocaleString (if (1000000000000 : ℚ) < q then q / 1000 else q))
    else if q.den = 1 then Except.ok (env.intToLocaleString q)
    else Except.ok (env.fracToLocaleString q)
  | .date e => Except.ok (env.dateToLocaleString e)
  | .obj hasToJSON jsonResult strConv =>
    if hasToJSON then Except.ok strConv
    else
      match jsStringify jsonResult with
      | Except.ok s => Except.ok s
      | Except.error _ => Except.ok strConv
  | .str s => Except.ok s
  | .bool b => Except.ok (cond b "true" "false")

/-- The `displayValue` computed per cell in `ResultsGrid.createRow` (lines
160-170 of the component): NULL for null/undefined, otherwise
`formatValue(value, column.type)`; the numeric/non-numeric split there
only affects the CSS class, not the text. This string is inserted with
`cell.textContent = displayValue`, i.e. as plain text. -/
def displayValue (env : Env) (v : Value) (colType : String) : String :=
  match v with
  | .vnull => "NULL"
  | .vundefined => "NULL"
  | _ => formatValue env v (some colType)

/-- The mutable fields of the `ResultsGrid` class instance that the scroll
and resize handlers read and write. `hasSurface` models
`scrollContainer != null && gridBody != null`; `renders` counts the times
`updateVisibleRows` cleared and rebuilt `gridBody` (its display-surface
materializations); `rowCount` is `this.rows.length`. -/
structure State where
  visibleStart : ℤ
  visibleEnd : ℤ
  rowCount : ℕ
  hasSurface : Bool
  renders : ℕ
  columnWidths : List ℚ
  dragStartIndex : ℤ
  dragStartX : ℚ
  dragStartWidth : ℚ
deriving DecidableEq

/-- `firstVisible` of `ResultsGrid.updateVisibleRows`:
`Math.max(0, Math.floor((scrollTop - headerHeight) / rowHeight) - bufferRows)`
with headerHeight 40, rowHeight 32, bufferRows 10. `Int.fdiv` is the
floor division `Math.floor` performs on the (possibly negative) quotient. -/
def firstVisible (scrollTop : ℤ) : ℤ :=
  max 0 (Int.fdiv (scrollTop - 40) 32 - 10)

/-- `lastVisible` of `ResultsGrid.updateVisibleRows`:
`Math.min(rows.length - 1, Math.ceil((scrollTop - headerHeight + viewportHeight) / rowHeight) + bufferRows)`;
`Math.ceil(x / 32)` for integer `x` is `(x + 31).fdiv 32`. -/
def lastVisible (scrollTop viewportHeight : ℤ) (rowCount : ℕ) : ℤ :=
  min ((rowCount : ℤ) - 1) (Int.fdiv (scrollTop - 40 + viewportHeight + 31) 32 + 10)

/-- `ResultsGrid.updateVisibleRows` as a state transformer: bail out when
the surface is missing, recompute the window, return unchanged when it
equals the previously materialized window, otherwise record the new window
and re-materialize the body (counted in `renders`). -/
def updateVisibleRows (s : State) (scrollTop viewportHeight : ℤ) : State :=
  if s.hasSurface = false then s
  else
    let f := firstVisible scrollTop
    let l := lastVisible scrollTop viewportHeight s.rowCount
    if f = s.visibleStart ∧ l = s.visibleEnd then s
    else { s with visibleStart := f, visibleEnd := l, renders := s.renders + 1 }

/-- The literal 50 in `ResultsGrid.handleMouseMove`:
`Math.max(50, this.dragStartWidth + deltaX)`. -/
def minDragWidth : ℚ := 50

/-- `ResultsGrid.handleMouseDown(e, index)`: capture the drag column, the
pointer x and the starting width. (`index` is always in range at a real
pointer-down, since resizers exist only on header cells; the out-of-range
`getD` default is never relied on in the theorems.) -/
def handleMouseDown (s : State) (clientX : ℚ) (index : ℕ) : State :=
  { s with dragStartIndex := (index : ℤ), dragStartX := clientX,
           dragStartWidth := s.columnWidths.getD index 0 }

/-- `ResultsGrid.handleMouseMove(e)`: no-op unless a drag is active,
otherwise write `max(50, dragStartWidth + (clientX - dragStartX))` into the
column width state at the dragged index. (The accompanying
`updateColumnWidth` DOM patch touches only element styles, not this
state.) -/
def handleMouseMove (s : State) (clientX : ℚ) : State :=
  if s.dragStartIndex = -1 then s
  else
    let deltaX := clientX - s.dragStartX
    let newWidth := max minDragWidth (s.dragStartWidth + deltaX)
    { s with columnWidths := s.columnWidths.set s.dragStartIndex.toNat newWidth }

/-- `ResultsGrid.calculateColumnWidths`. `ctx` is the `canvas.getContext`
result: `none` means the 2d context was unavailable and every column falls
back to width 150; otherwise `measureText s` is `ctx.measureText(s).width`
under the grid font. Per column: header text width plus the 60px type
badge allowance, versus the widths of the formatted values of the first
`min(100, rows.length)` rows plus 32px padding (an out-of-range cell read
is `undefined` in JavaScript and formats as NULL, hence the `getD`
defaults); the larger of the two is clamped to the closed range 50..300. -/
def calculateColumnWidths (env : Env) (ctx : Option (String → ℚ))
    (columns : List Column) (rows : List (List Value)) : List ℚ :=
  match ctx with
  | none => columns.map (fun _ => 150)
  | some measureText =>
    columns.enum.map (fun p =>
      let colIndex := p.1
      let column := p.2
      let headerWidth := measureText column.name + 60
      let sampleSize := min 100 rows.length
      let maxDataWidth := (List.range sampleSize).foldl
        (fun acc i =>
          let value := (rows.getD i []).getD colIndex Value.vundefined
          let dv := formatValue env value (some column.type)
          max acc (measureText dv + 32)) 0
      let optimalWidth := max headerWidth maxDataWidth
      min 300 (max 50 optimalWidth))

end ResultsGrid

namespace ResultsPanel

/-- `ROW_HEIGHT` of `results-panel.js`. -/
def rowHeight : ℕ := 32

/-- `BUFFER_ROWS` of `results-panel.js`. -/
def bufferRows : ℕ := 10

/-- `startIndex` of `updateVisibleRows` in `results-panel.js`:
`Math.max(0, Math.floor(scrollTop / ROW_HEIGHT) - BUFFER_ROWS)`.
`scrollTop` is a non-negative pixel offset, so `Math.floor` of the
quotient is natural division, and truncated subtraction realizes the
`Math.max(0, _)`. -/
def startIndex (scrollTop : ℕ) : ℕ :=
  scrollTop / rowHeight - bufferRows

/-- `endIndex` of `updateVisibleRows` in `results-panel.js` (exclusive:
the loop runs `i` from `startIndex` while `i < endIndex`):
`Math.min(rows.length, Math.ceil((scrollTop + containerHeight) / ROW_HEIGHT) + BUFFER_ROWS)`,
with `Math.ceil(x / 32)` written as `(x + 31) / 32`. -/
def endIndex (scrollTop containerHeight rowCount : ℕ) : ℕ :=
  min rowCount ((scrollTop + containerHeight + (rowHeight - 1)) / rowHeight + bufferRows)

/-- Row `i` occupies the pixel band from `i * ROW_HEIGHT` (its `top`) to
just before `(i + 1) * ROW_HEIGHT` inside the scroll content; the viewport
shows the pixel band from `scrollTop` to just before
`scrollTop + containerHeight`. The row is (partly) inside the viewport iff
the two bands overlap. -/
def rowIntersects (scrollTop containerHeight i : ℕ) : Prop :=
  i * rowHeight < scrollTop + containerHeight ∧ scrollTop < i * rowHeight + rowHeight

instance (s h i : ℕ) : Decidable (rowIntersects s h i) := by
  unfold rowIntersects; infer_instance

end ResultsPanel

namespace DuckDB

/-- `QueryResult` of `duckdb-manager.ts` (webview variant with the row
cap). -/
structure QueryResult where
  columns : List Column
  rows : List (List Value)
  totalRows : ℕ
  executionTime : ℚ
  isTruncated : Bool
deriving DecidableEq

/-- `MAX_ROWS` of `DuckDBManager.executeQuery`. -/
def maxRows : ℕ := 10000

/-- The result assembly of `DuckDBManager.executeQuery` after the engine
call: each Arrow row (modelled as its name-to-value lookup) is projected
through the column list into an array-of-arrays; then the cap is applied:
when more than `MAX_ROWS` rows were produced the array is cut to
`MAX_ROWS` and `isTruncated` set, and `totalRows` is `MAX_ROWS` when
truncated, else the (post-cut) length. `executionTime` is 0, set by the
caller. -/
def executeQuery (columns : List Column) (data : List (String → Value)) : QueryResult :=
  let rows := data.map (fun row => columns.map (fun col => row col.name))
  let isTruncated := decide (rows.length > maxRows)
  let rows2 := if rows.length > maxRows then rows.take maxRows else rows
  { columns := columns
    rows := rows2
    totalRows := if isTruncated then maxRows else rows2.length
    executionTime := 0
    isTruncated := isTruncated }

end DuckDB

/-! ### Helper lemmas about the HTML text serialization -/

theorem unescapeChars_amp (E : List Char) :
    unescapeChars ('&' :: 'a' :: 'm' :: 'p' :: ';' :: E) = '&' :: unescapeChars E := by
  rw [unescapeChars.eq_def]
  split
  case h_5 hamp hlt hgt heq => injection heq with h1 h2; exact absurd h2.symm (hamp E h1.symm)
  all_goals simp_all

theorem unescapeChars_lt (E : List Char) :
    unescapeChars ('&' :: 'l' :: 't' :: ';' :: E) = '<' :: unescapeChars E := by
  rw [unescapeChars.eq_def]
  split
  case h_5 hamp hlt hgt heq => injection heq with h1 h2; exact absurd h2.symm (hlt E h1.symm)
  all_goals simp_all

theorem unescapeChars_gt (E : List Char) :
    unescapeChars ('&' :: 'g' :: 't' :: ';' :: E) = '>' :: unescapeChars E := by
  rw [unescapeChars.eq_def]
  split
  case h_5 hamp hlt hgt heq => injection heq with h1 h2; exact absurd h2.symm (hgt E h1.symm)
  all_goals simp_all

theorem unescapeChars_cons_ne (c : Char) (rest : List Char) (h : c ≠ '&') :
    unescapeChars (c :: rest) = c :: unescapeChars rest := by
  rw [unescapeChars.eq_def]
  split <;> simp_all

theorem escapeChar_amp : escapeChar '&' = ['&', 'a', 'm', 'p', ';'] := by decide

theorem escapeChar_ltc : escapeChar '<' = ['&', 'l', 't', ';'] := by decide

theorem escapeChar_gtc : escapeChar '>' = ['&', 'g', 't', ';'] := by decide

theorem escapeChar_other (c : Char) (h1 : c ≠ '&') (h2 : c ≠ '<') (h3 : c ≠ '>') :
    escapeChar c = [c] := by
  rw [escapeChar, if_neg h1, if_neg h2, if_neg h3]

/-- Decoding inverts encoding: the browser parsing the escaped text yields
the original string, character for character. -/
theorem unescape_escape_chars (l : List Char) : unescapeChars (escapeChars l) = l := by
  induction l with
  | nil => rfl
  | cons c rest ih =>
    rw [escapeChars]
    by_cases h1 : c = '&'
    · subst h1
      rw [escapeChar_amp, List.cons_append, List.cons_append, List.cons_append,
        List.cons_append, List.singleton_append, unescapeChars_amp, ih]
    · by_cases h2 : c = '<'
      · subst h2
        rw [escapeChar_ltc, List.cons_append, List.cons_append, List.cons_append,
          List.singleton_append, unescapeChars_lt, ih]
      · by_cases h3 : c = '>'
        · subst h3
          rw [escapeChar_gtc, List.cons_append, List.cons_append, List.cons_append,
            List.singleton_append, unescapeChars_gt, ih]
        · rw [escapeChar_other c h1 h2 h3, List.singleton_append,
            unescapeChars_cons_ne c _ h1, ih]

/-- No `<` survives escaping, so no tag (hence no element, script or event
handler) can begin anywhere inside the escaped text. -/
theorem escape_chars_no_lt (l : List Char) :
    (escapeChars l).all (fun c => c != '<') = true := by
  induction l with
  | nil => rfl
  | cons c rest ih =>
    rw [escapeChars, List.all_append, ih, Bool.and_true]
    by_cases h1 : c = '&'
    · subst h1; decide
    · by_cases h2 : c = '<'
      · subst h2; decide
      · by_cases h3 : c = '>'
        · subst h3; decide
        · rw [escapeChar_other c h1 h2 h3]
          simp [h2]

/-- String-level round trip: parsing the escaped text recovers the
original string. -/
theorem unescapeHtml_escapeHtml (s : String) : unescapeHtml (escapeHtml s) = s := by
  show String.mk (unescapeChars (escapeChars s.data)) = s
  rw [unescape_escape_chars]

/-! ### Sample instances used by the witnesses -/

/-- A concrete locale environment for evaluating the theorems at inputs. -/
def sampleEnv : Env where
  dateToLocaleString := fun q => "date " ++ toString q.num
  intToLocaleString := fun q => "int " ++ toString q.num
  fracToLocaleString := fun q => "frac " ++ toString q.num

/-- A concrete column. -/
def sampleColumn : Column := { name := "a", type := "VARCHAR" }

/-- A concrete grid state with two columns and no active drag. -/
def sampleState : ResultsGrid.State where
  visibleStart := -1
  visibleEnd := -1
  rowCount := 5
  hasSurface := true
  renders := 0
  columnWidths := [100, 200]
  dragStartIndex := -1
  dragStartX := 0
  dragStartWidth := 0

/-- One hundred empty rows. -/
def sampleRowsA : List (List Value) := List.replicate 100 []

/-! ### The claims -/

/-- C1: for every cell value and declared column type, the text inserted
into the render surface is the formatted value with the HTML-active
characters neutralized. Along the innerHTML path of
`updateVisibleRows`/`renderStaticTable` the inserted fragment is
`escapeHtml` of the display value: it parses back to exactly the display
value and contains no tag-opening character, so it can never be read as
markup or script; along the `createRow` path the display value is stored
via `textContent`, whose HTML serialization is that same `escapeHtml`
image. In particular an img-tag payload is escaped to its literal text. -/
theorem cell_text_neutralized (env : Env) (v : Value) (t : String) :
    unescapeHtml (escapeHtml (ResultsGrid.displayValue env v t))
        = ResultsGrid.displayValue env v t
    ∧ ((escapeHtml (ResultsGrid.displayValue env v t)).data.all (fun c => c != '<')) = true
    ∧ escapeHtml "<img src=x onerror=alert(1)>" = "&lt;img src=x onerror=alert(1)&gt;"
    ∧ ResultsGrid.displayValue env (Value.str "<img src=x onerror=alert(1)>") "VARCHAR"
        = "<img src=x onerror=alert(1)>" := by
  refine ⟨unescapeHtml_escapeHtml _, ?_, by decide, rfl⟩
  exact escape_chars_no_lt (ResultsGrid.displayValue env v t).data

/-- C2: for every scrollTop, positive viewport height and row count, the
window materialized by `updateVisibleRows` of `results-panel.js` (indices
`startIndex ≤ i < endIndex`) is exactly the set of row indices whose
32px-high band intersects the viewport band, extended by exactly
BUFFER_ROWS = 10 indices on each side and clamped to `0..rowCount-1`:
`S / 32` is the first intersecting index and `(S + H - 1) / 32` the last. -/
theorem updateVisibleRows_window_buffer (S H n : ℕ) (hH : 0 < H) :
    (∀ i, ResultsPanel.rowIntersects S H i ↔ (S / 32 ≤ i ∧ i ≤ (S + H - 1) / 32))
    ∧ (∀ i, (ResultsPanel.startIndex S ≤ i ∧ i < ResultsPanel.endIndex S H n) ↔
        (i < n ∧ S / 32 - 10 ≤ i ∧ i ≤ (S + H - 1) / 32 + 10)) := by
  constructor
  · intro i
    unfold ResultsPanel.rowIntersects ResultsPanel.rowHeight
    constructor <;> intro h <;> omega
  · intro i
    unfold ResultsPanel.startIndex ResultsPanel.endIndex ResultsPanel.rowHeight
      ResultsPanel.bufferRows
    constructor <;> intro h <;> omega

/-- Witness for C2 at scrollTop 16, viewport height 64, 1000 rows. -/
theorem updateVisibleRows_window_buffer_witness :
    0 < 64
    ∧ ((∀ i, ResultsPanel.rowIntersects 16 64 i ↔ (16 / 32 ≤ i ∧ i ≤ (16 + 64 - 1) / 32))
      ∧ (∀ i, (ResultsPanel.startIndex 16 ≤ i ∧ i < ResultsPanel.endIndex 16 64 1000) ↔
          (i < 1000 ∧ 16 / 32 - 10 ≤ i ∧ i ≤ (16 + 64 - 1) / 32 + 10))) :=
  ⟨by norm_num, updateVisibleRows_window_buffer 16 64 1000 (by norm_num)⟩

/-- Helper for C3: on a temporal-typed column `formatValue` sends a numeric
value into the epoch branch. -/
theorem formatValue_temporal (env : Env) (q : ℚ) (t : String)
    (h : jsIncludes (jsToUpperCase t) "DATE" = true
        ∨ jsIncludes (jsToUpperCase t) "TIMESTAMP" = true) :
    ResultsGrid.formatValue env (Value.num q) (some t)
      = env.dateToLocaleString (if (1000000000000 : ℚ) < q then q / 1000 else q) := by
  rw [ResultsGrid.formatValue]
  simp only [Option.map_some', Option.getD_some]
  have hb : (jsIncludes (jsToUpperCase t) "DATE"
      || jsIncludes (jsToUpperCase t) "TIMESTAMP") = true := by
    rcases h with h | h <;> simp [h]
  rw [if_pos hb]

/-- C3: on a column whose declared type contains DATE or TIMESTAMP, a
numeric cell value is interpreted as an epoch stamp: above 1e12 it is
divided by 1000 (microseconds to milliseconds) before the date is built,
otherwise it is used directly as epoch milliseconds; in particular
1700000000000000 on a TIMESTAMP column is divided by 1000. -/
theorem formatValue_temporal_epoch (env : Env) (q : ℚ) (t : String)
    (h : jsIncludes (jsToUpperCase t) "DATE" = true
        ∨ jsIncludes (jsToUpperCase t) "TIMESTAMP" = true) :
    ResultsGrid.formatValue env (Value.num q) (some t)
        = env.dateToLocaleString (if (1000000000000 : ℚ) < q then q / 1000 else q)
    ∧ ResultsGrid.formatValue env (Value.num 1700000000000000) (some "TIMESTAMP")
        = env.dateToLocaleString 1700000000000 := by
  constructor
  · exact formatValue_temporal env q t h
  · rw [formatValue_temporal env 1700000000000000 "TIMESTAMP" (Or.inr (by decide))]
    norm_num

/-- Witness for C3 at value 1700000000000000 on a TIMESTAMP column. -/
theorem formatValue_temporal_epoch_witness :
    (jsIncludes (jsToUpperCase "TIMESTAMP") "DATE" = true
        ∨ jsIncludes (jsToUpperCase "TIMESTAMP") "TIMESTAMP" = true)
    ∧ (ResultsGrid.formatValue sampleEnv (Value.num 1700000000000000) (some "TIMESTAMP")
          = sampleEnv.dateToLocaleString
              (if (1000000000000 : ℚ) < 1700000000000000 then 1700000000000000 / 1000
               else 1700000000000000)
      ∧ ResultsGrid.formatValue sampleEnv (Value.num 1700000000000000) (some "TIMESTAMP")
          = sampleEnv.dateToLocaleString 1700000000000) :=
  ⟨Or.inr (by decide),
    formatValue_temporal_epoch sampleEnv 1700000000000000 "TIMESTAMP" (Or.inr (by decide))⟩

/-- C4: the per-cell formatter is total and never lets an exception escape:
its exception-level semantics always returns `ok` of the string the total
function computes, and on an object whose `JSON.stringify` throws it falls
back to the generic `String(value)` conversion (for both the `toJSON` and
the catch route), so one malformed cell cannot abort rendering. -/
theorem formatValue_total_no_throw (env : Env) (v : Value) (t : Option String) :
    ResultsGrid.formatValueE env v t = Except.ok (ResultsGrid.formatValue env v t)
    ∧ (∀ h sc, ResultsGrid.formatValue env (Value.obj h none sc) t = sc) := by
  constructor
  · cases v with
    | num q =>
      rw [ResultsGrid.formatValueE, ResultsGrid.formatValue]
      by_cases hT : (jsIncludes ((t.map jsToUpperCase).getD "") "DATE"
          || jsIncludes ((t.map jsToUpperCase).getD "") "TIMESTAMP") = true
      · rw [if_pos hT, if_pos hT]
      · rw [if_neg hT, if_neg hT]
        by_cases hq : q.den = 1
        · rw [if_pos hq, if_pos hq]
        · rw [if_neg hq, if_neg hq]
    | obj h j sc =>
      rw [ResultsGrid.formatValueE.eq_def, ResultsGrid.formatValue.eq_def]
      simp only [ResultsGrid.jsStringify]
      cases h with
      | true => rfl
      | false => cases j <;> rfl
    | vnull => rfl
    | vundefined => rfl
    | str s => rfl
    | date e => rfl
    | bool b => rfl
  · intro h sc
    cases h <;> rfl

/-- C5: a second call of `ResultsGrid.updateVisibleRows` with the same
scroll offset and viewport height is a no-op: it computes the same window
as the previously materialized one, takes the early return and leaves the
state (in particular the materialization counter) unchanged. -/
theorem updateVisibleRows_idempotent (s : ResultsGrid.State) (scrollTop viewportHeight : ℤ) :
    ResultsGrid.updateVisibleRows
        (ResultsGrid.updateVisibleRows s scrollTop viewportHeight) scrollTop viewportHeight
      = ResultsGrid.updateVisibleRows s scrollTop viewportHeight := by
  by_cases hs : s.hasSurface = false
  · have h1 : ResultsGrid.updateVisibleRows s scrollTop viewportHeight = s := by
      unfold ResultsGrid.updateVisibleRows; rw [if_pos hs]
    rw [h1, h1]
  · by_cases hg : ResultsGrid.firstVisible scrollTop = s.visibleStart
        ∧ ResultsGrid.lastVisible scrollTop viewportHeight s.rowCount = s.visibleEnd
    · have h1 : ResultsGrid.updateVisibleRows s scrollTop viewportHeight = s := by
        unfold ResultsGrid.updateVisibleRows; rw [if_neg hs]; exact if_pos hg
      rw [h1, h1]
    · have h1 : ResultsGrid.updateVisibleRows s scrollTop viewportHeight
          = { s with visibleStart := ResultsGrid.firstVisible scrollTop,
                     visibleEnd := ResultsGrid.lastVisible scrollTop viewportHeight s.rowCount,
                     renders := s.renders + 1 } := by
        unfold ResultsGrid.updateVisibleRows; rw [if_neg hs]; exact if_neg hg
      rw [h1]
      unfold ResultsGrid.updateVisibleRows
      rw [if_neg (show ¬(_ = false) from hs)]
      exact if_pos ⟨rfl, rfl⟩

/-- A pointer-move leaves the drag anchors and the width-list length
unchanged. -/
theorem handleMouseMove_preserves (s : ResultsGrid.State) (x : ℚ) :
    (ResultsGrid.handleMouseMove s x).dragStartIndex = s.dragStartIndex
    ∧ (ResultsGrid.handleMouseMove s x).dragStartX = s.dragStartX
    ∧ (ResultsGrid.handleMouseMove s x).dragStartWidth = s.dragStartWidth
    ∧ (ResultsGrid.handleMouseMove s x).columnWidths.length = s.columnWidths.length := by
  unfold ResultsGrid.handleMouseMove
  by_cases h : s.dragStartIndex = -1
  · rw [if_pos h]; exact ⟨rfl, rfl, rfl, rfl⟩
  · rw [if_neg h]; exact ⟨rfl, rfl, rfl, by simp⟩

/-- Any sequence of pointer-moves leaves the drag anchors and the
width-list length unchanged. -/
theorem foldl_moves_preserves (xs : List ℚ) : ∀ s : ResultsGrid.State,
    ((xs.foldl ResultsGrid.handleMouseMove s).dragStartIndex = s.dragStartIndex
    ∧ (xs.foldl ResultsGrid.handleMouseMove s).dragStartX = s.dragStartX
    ∧ (xs.foldl ResultsGrid.handleMouseMove s).dragStartWidth = s.dragStartWidth
    ∧ (xs.foldl ResultsGrid.handleMouseMove s).columnWidths.length
        = s.columnWidths.length) := by
  induction xs with
  | nil => intro s; exact ⟨rfl, rfl, rfl, rfl⟩
  | cons x xs ih =>
    intro s
    have h1 := handleMouseMove_preserves s x
    have h2 := ih (ResultsGrid.handleMouseMove s x)
    rw [List.foldl_cons]
    exact ⟨h2.1.trans h1.1, h2.2.1.trans h1.2.1, h2.2.2.1.trans h1.2.2.1,
      h2.2.2.2.trans h1.2.2.2⟩

/-- A pointer-move during an active drag on column `i` rewrites exactly the
width list at `i`. -/
theorem handleMouseMove_active (s : ResultsGrid.State) (x : ℚ) (i : ℕ)
    (h : s.dragStartIndex = (i : ℤ)) :
    ResultsGrid.handleMouseMove s x
      = { s with columnWidths :=
            s.columnWidths.set i (max ResultsGrid.minDragWidth (s.dragStartWidth + (x - s.dragStartX))) } := by
  unfold ResultsGrid.handleMouseMove
  rw [if_neg (by rw [h]; omega)]
  rw [h, Int.toNat_natCast]

/-- C6: while a drag on column `i` is active, every pointer-move sets the
column width state at `i` to `max(MIN_DRAG_WIDTH, startWidth + (currentX -
startX))`, where the start width and start x were captured at pointer-down
(and are untouched by any intervening moves), and `MIN_DRAG_WIDTH` is the
constant 50, inside the reference range 20..50. -/
theorem drag_resize_width (s : ResultsGrid.State) (x0 x : ℚ) (i : ℕ) (xs : List ℚ)
    (hi : i < s.columnWidths.length) :
    (ResultsGrid.handleMouseMove
        (xs.foldl ResultsGrid.handleMouseMove (ResultsGrid.handleMouseDown s x0 i)) x
      ).columnWidths[i]?
      = some (max ResultsGrid.minDragWidth (s.columnWidths.getD i 0 + (x - x0)))
    ∧ (20 : ℚ) ≤ ResultsGrid.minDragWidth ∧ ResultsGrid.minDragWidth ≤ 50 := by
  refine ⟨?_, by norm_num [ResultsGrid.minDragWidth], by norm_num [ResultsGrid.minDragWidth]⟩
  have hp := foldl_moves_preserves xs (ResultsGrid.handleMouseDown s x0 i)
  have hidx : (xs.foldl ResultsGrid.handleMouseMove
      (ResultsGrid.handleMouseDown s x0 i)).dragStartIndex = (i : ℤ) := hp.1
  have hx : (xs.foldl ResultsGrid.handleMouseMove
      (ResultsGrid.handleMouseDown s x0 i)).dragStartX = x0 := hp.2.1
  have hw : (xs.foldl ResultsGrid.handleMouseMove
      (ResultsGrid.handleMouseDown s x0 i)).dragStartWidth
      = s.columnWidths.getD i 0 := hp.2.2.1
  have hlen : (xs.foldl ResultsGrid.handleMouseMove
      (ResultsGrid.handleMouseDown s x0 i)).columnWidths.length
      = s.columnWidths.length := hp.2.2.2
  rw [handleMouseMove_active _ x i hidx]
  rw [hw, hx]
  exact List.getElem?_set_self (by rw [hlen]; exact hi)

/-- Witness for C6: drag column 0 of the sample state from x 10 to x 25. -/
theorem drag_resize_width_witness :
    0 < sampleState.columnWidths.length
    ∧ ((ResultsGrid.handleMouseMove
          (([] : List ℚ).foldl ResultsGrid.handleMouseMove
            (ResultsGrid.handleMouseDown sampleState 10 0)) 25).columnWidths[0]?
        = some (max ResultsGrid.minDragWidth (sampleState.columnWidths.getD 0 0 + (25 - 10)))
      ∧ (20 : ℚ) ≤ ResultsGrid.minDragWidth ∧ ResultsGrid.minDragWidth ≤ 50) :=
  ⟨by norm_num [sampleState],
    drag_resize_width sampleState 10 25 0 [] (by norm_num [sampleState])⟩

/-- C7: every width produced by `calculateColumnWidths` lies in the closed
interval `MIN_WIDTH = 50 .. MAX_WIDTH = 300`: the measuring branch clamps
into it, and the no-context fallback 150 lies inside it. -/
theorem calculateColumnWidths_bounded (env : Env) (ctx : Option (String → ℚ))
    (cols : List Column) (rows : List (List Value)) (w : ℚ)
    (hw : w ∈ ResultsGrid.calculateColumnWidths env ctx cols rows) :
    50 ≤ w ∧ w ≤ 300 := by
  cases ctx with
  | none =>
    rw [ResultsGrid.calculateColumnWidths] at hw
    simp only [List.mem_map] at hw
    obtain ⟨c, -, rfl⟩ := hw
    norm_num
  | some m =>
    rw [ResultsGrid.calculateColumnWidths] at hw
    simp only [List.mem_map] at hw
    obtain ⟨p, -, rfl⟩ := hw
    exact ⟨le_min (by norm_num) (le_max_left _ _), min_le_left _ _⟩

/-- Witness for C7: one VARCHAR column, no rows, no measuring context. -/
theorem calculateColumnWidths_bounded_witness :
    (150 : ℚ) ∈ ResultsGrid.calculateColumnWidths sampleEnv none [sampleColumn] []
    ∧ (50 ≤ (150 : ℚ) ∧ (150 : ℚ) ≤ 300) := by
  have hm : (150 : ℚ) ∈ ResultsGrid.calculateColumnWidths sampleEnv none [sampleColumn] [] := by
    simp [ResultsGrid.calculateColumnWidths]
  exact ⟨hm, calculateColumnWidths_bounded sampleEnv none [sampleColumn] [] 150 hm⟩

/-- C8: the sizing computation reads only the first `min(100, rows.length)`
rows: two row lists with the same 100-row prefix yield identical widths,
and the result on a row list equals the result on its 100-row prefix. -/
theorem calculateColumnWidths_sample_prefix (env : Env) (ctx : Option (String → ℚ))
    (cols : List Column) (rows1 rows2 : List (List Value))
    (h : rows1.take 100 = rows2.take 100) :
    ResultsGrid.calculateColumnWidths env ctx cols rows1
        = ResultsGrid.calculateColumnWidths env ctx cols rows2
    ∧ ResultsGrid.calculateColumnWidths env ctx cols rows1
        = ResultsGrid.calculateColumnWidths env ctx cols (rows1.take 100) := by
  have key : ∀ r1 r2 : List (List Value), r1.take 100 = r2.take 100 →
      ResultsGrid.calculateColumnWidths env ctx cols r1
        = ResultsGrid.calculateColumnWidths env ctx cols r2 := by
    intro r1 r2 hr
    cases ctx with
    | none => rfl
    | some m =>
      rw [ResultsGrid.calculateColumnWidths, ResultsGrid.calculateColumnWidths]
      refine List.map_congr_left (fun p _ => ?_)
      have hlen : min 100 r1.length = min 100 r2.length := by
        have := congrArg List.length hr
        rwa [List.length_take, List.length_take] at this
      have hget : ∀ i, i < min 100 r1.length → r1.getD i [] = r2.getD i [] := by
        intro i hi
        have h1 : r1[i]? = r2[i]? := by
          have e1 : (r1.take 100)[i]? = r1[i]? := List.getElem?_take_of_lt (by omega)
          have e2 : (r2.take 100)[i]? = r2[i]? := List.getElem?_take_of_lt (by omega)
          rw [← e1, ← e2, hr]
        rw [List.getD_eq_getElem?_getD, List.getD_eq_getElem?_getD, h1]
      simp only
      rw [← hlen]
      have hfold :
          (List.range (min 100 r1.length)).foldl
            (fun acc i =>
              max acc (m (ResultsGrid.formatValue env ((r1.getD i []).getD p.1 Value.vundefined)
                (some p.2.type)) + 32)) 0
          = (List.range (min 100 r1.length)).foldl
            (fun acc i =>
              max acc (m (ResultsGrid.formatValue env ((r2.getD i []).getD p.1 Value.vundefined)
                (some p.2.type)) + 32)) 0 := by
        refine List.foldl_ext _ _ _ ?_
        intro acc i hi
        rw [hget i (List.mem_range.mp hi)]
      rw [hfold]
  refine ⟨key rows1 rows2 h, key rows1 (rows1.take 100) ?_⟩
  rw [List.take_take, min_self]

/-- Witness for C8: one hundred empty rows, with and without one extra
appended row, agree on the 100-row prefix and get the same widths. -/
theorem calculateColumnWidths_sample_prefix_witness :
    (sampleRowsA ++ [[Value.num 1]]).take 100 = sampleRowsA.take 100
    ∧ (ResultsGrid.calculateColumnWidths sampleEnv none [sampleColumn]
          (sampleRowsA ++ [[Value.num 1]])
        = ResultsGrid.calculateColumnWidths sampleEnv none [sampleColumn] sampleRowsA
      ∧ ResultsGrid.calculateColumnWidths sampleEnv none [sampleColumn]
          (sampleRowsA ++ [[Value.num 1]])
        = ResultsGrid.calculateColumnWidths sampleEnv none [sampleColumn]
            ((sampleRowsA ++ [[Value.num 1]]).take 100)) := by
  have h : (sampleRowsA ++ [[Value.num 1]]).take 100 = sampleRowsA.take 100 := by
    rw [List.take_append_of_le_length (by simp [sampleRowsA])]
  exact ⟨h, calculateColumnWidths_sample_prefix sampleEnv none [sampleColumn] _ _ h⟩

/-- C9: when the canvas 2d context is unavailable, `calculateColumnWidths`
returns the fixed default 150 for every column (one width per column); the
failure is absorbed locally, the function being total. -/
theorem calculateColumnWidths_ctx_fallback (env : Env) (cols : List Column)
    (rows : List (List Value)) :
    ResultsGrid.calculateColumnWidths env none cols rows = cols.map (fun _ => 150)
    ∧ (ResultsGrid.calculateColumnWidths env none cols rows).length = cols.length := by
  exact ⟨rfl, by rw [ResultsGrid.calculateColumnWidths, List.length_map]⟩

/-- C10: `executeQuery` caps every result at `MAX_ROWS = 10000` extracted
rows: the returned rows are the 10000-row prefix of the extraction (hence
untouched when at most 10000), the truncation flag is set exactly when the
extraction exceeds 10000 rows, and the reported `totalRows` is the capped
count `min(length, 10000)` - i.e. 10000, not the true count, whenever the
cap bites. -/
theorem executeQuery_row_cap (columns : List Column) (data : List (String → Value)) :
    (DuckDB.executeQuery columns data).rows
        = (data.map (fun row => columns.map (fun col => row col.name))).take 10000
    ∧ (DuckDB.executeQuery columns data).rows.length
        = min (data.map (fun row => columns.map (fun col => row col.name))).length 10000
    ∧ (DuckDB.executeQuery columns data).isTruncated
        = decide (10000 < (data.map (fun row => columns.map (fun col => row col.name))).length)
    ∧ (DuckDB.executeQuery columns data).totalRows
        = min (data.map (fun row => columns.map (fun col => row col.name))).length 10000 := by
  have hr : (DuckDB.executeQuery columns data).rows
      = (if (data.map (fun row => columns.map (fun col => row col.name))).length > DuckDB.maxRows
         then (data.map (fun row => columns.map (fun col => row col.name))).take DuckDB.maxRows
         else data.map (fun row => columns.map (fun col => row col.name))) := rfl
  have ht : (DuckDB.executeQuery columns data).isTruncated
      = decide ((data.map (fun row => columns.map (fun col => row col.name))).length
          > DuckDB.maxRows) := rfl
  have hT : (DuckDB.executeQuery columns data).totalRows
      = (if (DuckDB.executeQuery columns data).isTruncated = true then DuckDB.maxRows
         else (DuckDB.executeQuery columns data).rows.length) := rfl
  have h1 : (DuckDB.executeQuery columns data).rows
      = (data.map (fun row => columns.map (fun col => row col.name))).take 10000 := by
    rw [hr]
    split_ifs with h
    · rfl
    · exact (List.take_of_length_le (Nat.not_lt.mp h)).symm
  have h2 : (DuckDB.executeQuery columns data).rows.length
      = min (data.map (fun row => columns.map (fun col => row col.name))).length 10000 := by
    rw [h1, List.length_take, Nat.min_comm]
  refine ⟨h1, h2, ht, ?_⟩
  rw [hT, ht]
  split_ifs with h
  · simp only [decide_eq_true_eq] at h
    exact (Nat.min_eq_right (Nat.le_of_lt h)).symm
  · exact h2

end SqlExplorer
